import Mathlib

/-!
Verification of the Text-Analyzer frontend core
(`src/frontend/src/App.jsx`).

The React component state hooks are embedded as an explicit record
`AppState`; the event handlers (`handleAnalyze`, `handleClear`,
`handleCopyCategory`, `handleDownloadPDF`) become pure state-transition
functions.  The asynchronous analyze call is split into its synchronous
prefix (`handleAnalyzeStart`, which also reports whether a fetch was
issued) and its continuation (`handleAnalyzeSettle`, parameterised by
the outcome of the fetch).  The PDF export is embedded as a paginator
over an abstract word-wrapping function `wrap` standing for the
`splitTextToSize` call of the rendering library.
-/

namespace TextAnalyzer

/-- Text statistics as delivered by the analysis service
(`result.text_stats`).  The two average fields are floating-point
numbers in the JSON payload; the frontend never computes with them,
only interpolates them into strings, so they are carried here as their
rendered decimal form. -/
structure TextStats where
  word_count : Nat
  sentence_count : Nat
  avg_sentence_length : String
  avg_word_length : String
  character_count : Nat
deriving DecidableEq, Repr

/-- Readability block of the result (`result.readability`); the grade
is carried in rendered form, as for `TextStats`. -/
structure Readability where
  flesch_kincaid_grade : String
  reading_level : String
  description : String
deriving DecidableEq, Repr

/-- Tense analysis block (`result.tense_analysis`). -/
structure TenseAnalysis where
  past : List String
  present : List String
  future : List String
deriving DecidableEq, Repr

/-- One entry of `result.word_frequency`. -/
structure WordFreqItem where
  word : String
  count : Nat
deriving DecidableEq, Repr

/-- Parts-of-speech block (`result.parts_of_speech`).  Each category
may be absent from the JSON object (the frontend reads them with the
optional-chaining operator), hence `Option`. -/
structure PartsOfSpeech where
  nouns : Option (List String)
  verbs : Option (List String)
  adjectives : Option (List String)
  adverbs : Option (List String)
  pronouns : Option (List String)
  prepositions : Option (List String)
  conjunctions : Option (List String)
deriving DecidableEq, Repr

/-- A successful analysis response (`data` in `handleAnalyze`). -/
structure AnalysisResult where
  text_stats : TextStats
  readability : Readability
  tense_analysis : TenseAnalysis
  passive_sentences : List String
  word_frequency : List WordFreqItem
  parts_of_speech : PartsOfSpeech
deriving DecidableEq, Repr

/-- The component state: the five `useState` hooks of `App`, in source
order (`text`, `result`, `loading`, `error`, `copiedCategory`). -/
structure AppState where
  text : String
  result : Option AnalysisResult
  loading : Bool
  error : String
  copiedCategory : Option String
deriving DecidableEq, Repr

/-- The request-lifecycle states of the specification, derived from the
hooks: `loading = true` is `Loading`, otherwise a stored result is
`Success`, otherwise a non-empty error message is `Error`, otherwise
`Idle`. -/
inductive RequestState where
  | idle
  | loading
  | success (r : AnalysisResult)
  | error (message : String)
deriving DecidableEq, Repr

/-- Map the hook record to the tagged request state. -/
def requestState (s : AppState) : RequestState :=
  if s.loading then RequestState.loading
  else
    match s.result with
    | some r => RequestState.success r
    | none => if s.error = "" then RequestState.idle else RequestState.error s.error

/-- Embedding of the JavaScript `String.prototype.trim`: drop
whitespace from both ends.  (Defined over the character list so that it
reduces inside the kernel.) -/
def jsTrim (s : String) : String :=
  String.mk (((s.data.dropWhile Char.isWhitespace).reverse.dropWhile
    Char.isWhitespace).reverse)

/-- The synchronous prefix of `handleAnalyze` (lines 11-20): the
validation guard `!text.trim() || text.length < 10`, and on success the
three state writes preceding the fetch.  The boolean component records
whether a fetch to the analysis service was issued. -/
def handleAnalyzeStart (s : AppState) : AppState × Bool :=
  if jsTrim s.text = "" ∨ s.text.length < 10 then
    ({ s with error := "Please enter at least 10 characters of text" }, false)
  else
    ({ s with loading := true, error := "", result := none }, true)

/-- Outcome of the awaited fetch: either a parsed response with its
`ok` flag and optional `detail` field, or a thrown transport/parse
error with the message of the exception. -/
inductive FetchOutcome where
  | response (ok : Bool) (detail : Option String) (data : AnalysisResult)
  | transportError (message : String)
deriving DecidableEq, Repr

/-- The message of the error thrown on a non-ok response:
`data.detail || 'Analysis failed'` (line 29); the empty string is falsy
in JavaScript. -/
def detailMessage (detail : Option String) : String :=
  match detail with
  | some d => if d = "" then "Analysis failed" else d
  | none => "Analysis failed"

/-- The message stored by the catch block:
`err.message || 'Failed to connect to server'` (line 32). -/
def transportMessage (m : String) : String :=
  if m = "" then "Failed to connect to server" else m

/-- The error message a given outcome leads to, `none` for a successful
outcome. -/
def failureMessage : FetchOutcome → Option String
  | FetchOutcome.response ok detail _ =>
      if ok then none else some (detailMessage detail)
  | FetchOutcome.transportError m => some (transportMessage m)

/-- The continuation of `handleAnalyze` after the fetch resolves
(lines 28-35): on an ok response store the result, otherwise store the
error message; the `finally` clause clears `loading` on every path. -/
def handleAnalyzeSettle (s : AppState) (o : FetchOutcome) : AppState :=
  match o with
  | FetchOutcome.response ok detail data =>
      if ok then { s with result := some data, loading := false }
      else { s with error := detailMessage detail, loading := false }
  | FetchOutcome.transportError m =>
      { s with error := transportMessage m, loading := false }

/-- `handleClear` (lines 38-42): resets `text`, `result` and `error`;
the `loading` and `copiedCategory` hooks are not written. -/
def handleClear (s : AppState) : AppState :=
  { s with text := "", result := none, error := "" }

/-- The `disabled` attribute of the Analyze button (line 271):
`loading || text.length < 10`. -/
def analyzeDisabled (s : AppState) : Bool :=
  s.loading || decide (s.text.length < 10)

/-- Claim C1 (counterexample).  The claim quantifies over every `text`
with `trim(text).length < 10`, but the guard in `handleAnalyze`
tests the UNtrimmed length: on the input consisting of two letters
followed by eight spaces the trimmed length is 2, yet the handler
issues the fetch and enters Loading. -/
theorem c1_trim_counterexample :
    (let s : AppState := ⟨"ab        ", none, false, "", none⟩
     (jsTrim s.text).length < 10 ∧
     (handleAnalyzeStart s).2 = true ∧
     (handleAnalyzeStart s).1.loading = true) := by
  decide

/-- Claim C1 (amended).  Validation fails exactly when the trimmed text
is empty or the raw text length is below 10; in that case the handler
stores the validation message, issues no fetch, and leaves `result`
and `loading` (hence the Loading state) untouched. -/
theorem c1_validation_no_fetch (s : AppState)
    (h : jsTrim s.text = "" ∨ s.text.length < 10) :
    (handleAnalyzeStart s).2 = false ∧
    (handleAnalyzeStart s).1 =
      { s with error := "Please enter at least 10 characters of text" } := by
  unfold handleAnalyzeStart
  rw [if_pos h]
  exact ⟨rfl, rfl⟩

/-- Witness for `c1_validation_no_fetch` at the concrete input
`"short"`. -/
theorem c1_validation_no_fetch_witness :
    ((jsTrim "short" = "" ∨ ("short" : String).length < 10) ∧
     (handleAnalyzeStart ⟨"short", none, false, "", none⟩).2 = false) :=
  ⟨Or.inr (by decide),
   (c1_validation_no_fetch ⟨"short", none, false, "", none⟩ (Or.inr (by decide))).1⟩

/-- Claim C2 (counterexample).  The claim says the controller itself
rejects a `submit` while Loading; but `handleAnalyze` never reads
`loading`: invoked on a Loading state with valid text it issues a
second fetch. -/
theorem c2_reentrancy_counterexample :
    (let s : AppState := ⟨"hello world!", none, true, "", none⟩
     s.loading = true ∧ (handleAnalyzeStart s).2 = true) := by
  decide

/-- Claim C2 (amended).  At-most-one-in-flight is enforced only by the
UI: while Loading the Analyze control is disabled, so no submit is
delivered; the controller itself performs no loading check and, if
invoked directly on a Loading state with valid text, issues a second
fetch. -/
theorem c2_disabled_only_guard (s : AppState) (h : s.loading = true) :
    analyzeDisabled s = true ∧
    (¬ (jsTrim s.text = "" ∨ s.text.length < 10) →
      (handleAnalyzeStart s).2 = true) := by
  constructor
  · simp [analyzeDisabled, h]
  · intro hv
    simp only [handleAnalyzeStart, if_neg hv]

/-- Witness for `c2_disabled_only_guard` at a concrete Loading state. -/
theorem c2_disabled_only_guard_witness :
    analyzeDisabled ⟨"hello world!", none, true, "", none⟩ = true ∧
    (handleAnalyzeStart ⟨"hello world!", none, true, "", none⟩).2 = true :=
  ⟨(c2_disabled_only_guard ⟨"hello world!", none, true, "", none⟩ rfl).1,
   (c2_disabled_only_guard ⟨"hello world!", none, true, "", none⟩ rfl).2 (by decide)⟩

/-- Claim C4 (counterexample).  `handleClear` does not write the
`loading` hook: invoked while Loading, the state after clearing is
still Loading, not Idle. -/
theorem c4_clear_counterexample :
    (let s : AppState := ⟨"abc", none, true, "", none⟩
     requestState (handleClear s) = RequestState.loading ∧
     requestState (handleClear s) ≠ RequestState.idle) := by
  decide

/-- Claim C4 (amended).  `clear` unconditionally discards the raw text,
the stored result and the error message, but leaves `loading` as it
was: from Idle, Success or Error the state returns to Idle, while from
Loading it remains Loading. -/
theorem c4_clear_resets (s : AppState) :
    (handleClear s).text = "" ∧
    (handleClear s).result = none ∧
    (handleClear s).error = "" ∧
    (handleClear s).loading = s.loading ∧
    (s.loading = false → requestState (handleClear s) = RequestState.idle) ∧
    (s.loading = true → requestState (handleClear s) = RequestState.loading) := by
  refine ⟨rfl, rfl, rfl, rfl, ?_, ?_⟩ <;>
    intro h <;> simp [requestState, handleClear, h]

/-- Witness for `c4_clear_resets`: clearing a concrete Error state
yields Idle. -/
theorem c4_clear_resets_witness :
    requestState (handleClear ⟨"abc", none, false, "boom", none⟩) =
      RequestState.idle :=
  (c4_clear_resets ⟨"abc", none, false, "boom", none⟩).2.2.2.2.1 rfl

/-- The stored error message carries the fallback when the detail field
is absent or empty, and is never empty itself. -/
theorem detailMessage_ne_empty (d : Option String) : detailMessage d ≠ "" := by
  cases d with
  | none => decide
  | some s =>
      by_cases h : s = "" <;> simp [detailMessage, h]

/-- The transport message is never empty. -/
theorem transportMessage_ne_empty (m : String) : transportMessage m ≠ "" := by
  by_cases h : m = "" <;> simp [transportMessage, h]

/-- Claim C9.  A submit that passes validation first clears any stored
result; when the fetch resolves with a failure (non-ok response or
thrown transport error) the handler stores the failure message, clears
`loading`, and no result is stored: the state is `Error(message)` with
the collaborator detail when present, else the generic fallback. -/
theorem c9_error_clears_result (s : AppState) (o : FetchOutcome) (msg : String)
    (hv : ¬ (jsTrim s.text = "" ∨ s.text.length < 10))
    (hf : failureMessage o = some msg) :
    (handleAnalyzeSettle (handleAnalyzeStart s).1 o).result = none ∧
    (handleAnalyzeSettle (handleAnalyzeStart s).1 o).loading = false ∧
    requestState (handleAnalyzeSettle (handleAnalyzeStart s).1 o) =
      RequestState.error msg := by
  have hstart : (handleAnalyzeStart s).1 =
      { s with loading := true, error := "", result := none } := by
    unfold handleAnalyzeStart
    rw [if_neg hv]
  rw [hstart]
  cases o with
  | response ok detail data =>
      cases ok with
      | true => simp [failureMessage] at hf
      | false =>
          simp only [failureMessage, if_neg Bool.false_ne_true, Option.some.injEq] at hf
          subst hf
          refine ⟨rfl, rfl, ?_⟩
          simp [handleAnalyzeSettle, requestState, detailMessage_ne_empty]
  | transportError m =>
      simp only [failureMessage, Option.some.injEq] at hf
      subst hf
      refine ⟨rfl, rfl, ?_⟩
      simp [handleAnalyzeSettle, requestState, transportMessage_ne_empty]

/-- Witness for `c9_error_clears_result`: a transport failure with an
empty exception message on a valid submit ends in the generic
fallback error with no stored result. -/
theorem c9_error_clears_result_witness :
    requestState
      (handleAnalyzeSettle
        (handleAnalyzeStart ⟨"hello world!", none, false, "", none⟩).1
        (FetchOutcome.transportError "")) =
      RequestState.error "Failed to connect to server" :=
  (c9_error_clears_result ⟨"hello world!", none, false, "", none⟩
    (FetchOutcome.transportError "") "Failed to connect to server"
    (by decide) rfl).2.2

/-!
## CopyFeedback

`handleCopyCategory` and `handleCopyStats` each set `copiedCategory`
and schedule `setCopiedCategory(null)` 2000 time units later via
`setTimeout`; no handle is kept, so no timer is ever cancelled.  The
timer semantics is embedded as a discrete-event simulation: every copy
action at time `t` contributes a set event at `t` and an unconditional
clear event at `t + 2000`; `copiedAt` replays, in time order, all
events at or before the query time.
-/

/-- A scheduled state mutation: the synchronous
`setCopiedCategory(category)` of a copy handler, or the
`setCopiedCategory(null)` of its timer callback. -/
inductive CFEvent where
  | set (cat : String)
  | clear
deriving DecidableEq, Repr

/-- The events generated by a list of copy actions `(time, category)`:
each action sets its category immediately and schedules a clear 2000
units later (lines 47-48, 58-59). -/
def cfTimeline : List (Nat × String) → List (Nat × CFEvent)
  | [] => []
  | c :: rest =>
      (c.1, CFEvent.set c.2) :: (c.1 + 2000, CFEvent.clear) :: cfTimeline rest

/-- Insert an event into a list sorted by time. -/
def cfInsert (e : Nat × CFEvent) : List (Nat × CFEvent) → List (Nat × CFEvent)
  | [] => [e]
  | f :: rest => if e.1 ≤ f.1 then e :: f :: rest else f :: cfInsert e rest

/-- Sort events by firing time. -/
def cfSort : List (Nat × CFEvent) → List (Nat × CFEvent)
  | [] => []
  | e :: rest => cfInsert e (cfSort rest)

/-- Apply one event to the `copiedCategory` hook: a set stores its
category, a timer callback stores `null` unconditionally. -/
def cfApply (_s : Option String) (e : Nat × CFEvent) : Option String :=
  match e.2 with
  | CFEvent.set c => some c
  | CFEvent.clear => none

/-- The value of `copiedCategory` at time `q`, given the copy actions:
replay every event with firing time at most `q` in time order. -/
def copiedAt (copies : List (Nat × String)) (q : Nat) : Option String :=
  ((cfSort (cfTimeline copies)).filter (fun e => decide (e.1 ≤ q))).foldl
    cfApply none

/-- Claim C3 (counterexample).  Copy category A at time 0 and category
B at time 1000 (within the 2000-unit window).  The claim says the
timer of A is cancelled, so B stays active until the expiry of B at
3000; in the code no timer is cancelled, and at time 2500 the timer of
A has already fired and cleared the state. -/
theorem c3_timer_counterexample :
    copiedAt [(0, "A"), (1000, "B")] 1500 = some "B" ∧
    (2500 : Nat) < 1000 + 2000 ∧
    copiedAt [(0, "A"), (1000, "B")] 2500 = none := by
  decide

/-- The sorted event list for two copy actions A-then-B issued within
the expiry window. -/
theorem cfSort_two (tA tB : Nat) (a b : String)
    (hab : tA < tB) (hwin : tB < tA + 2000) :
    cfSort (cfTimeline [(tA, a), (tB, b)]) =
      [(tA, CFEvent.set a), (tB, CFEvent.set b),
       (tA + 2000, CFEvent.clear), (tB + 2000, CFEvent.clear)] := by
  show cfInsert (tA, CFEvent.set a)
      (cfInsert (tA + 2000, CFEvent.clear)
        (cfInsert (tB, CFEvent.set b)
          (cfInsert (tB + 2000, CFEvent.clear) []))) = _
  rw [show cfInsert (tB + 2000, CFEvent.clear) [] = [(tB + 2000, CFEvent.clear)] from rfl]
  rw [show cfInsert (tB, CFEvent.set b) [(tB + 2000, CFEvent.clear)] =
      (tB, CFEvent.set b) :: [(tB + 2000, CFEvent.clear)] by
    unfold cfInsert; rw [if_pos (by omega)]]
  rw [show cfInsert (tA + 2000, CFEvent.clear)
      ((tB, CFEvent.set b) :: [(tB + 2000, CFEvent.clear)]) =
      (tB, CFEvent.set b) :: (tA + 2000, CFEvent.clear) ::
        [(tB + 2000, CFEvent.clear)] by
    unfold cfInsert; rw [if_neg (by omega)]
    unfold cfInsert; rw [if_pos (by omega)]]
  unfold cfInsert
  rw [if_pos (by omega)]

/-- Claim C3 (amended).  A second copy action within the window
overwrites the active category immediately (last-writer-wins at
activation), but the pending timer of the first action is NOT
cancelled: B is active only from its activation until the expiry of A
at `tA + 2000`, and from then on — before the expiry of B as well as
after it — no category is active. -/
theorem c3_no_cancellation (tA tB q : Nat) (a b : String)
    (hab : tA < tB) (hwin : tB < tA + 2000) :
    (tB ≤ q → q < tA + 2000 → copiedAt [(tA, a), (tB, b)] q = some b) ∧
    (tA + 2000 ≤ q → copiedAt [(tA, a), (tB, b)] q = none) := by
  unfold copiedAt
  rw [cfSort_two tA tB a b hab hwin]
  constructor
  · intro h1 h2
    rw [show List.filter (fun e => decide (e.1 ≤ q))
        [(tA, CFEvent.set a), (tB, CFEvent.set b),
         (tA + 2000, CFEvent.clear), (tB + 2000, CFEvent.clear)] =
        [(tA, CFEvent.set a), (tB, CFEvent.set b)] by
      simp only [List.filter]
      rw [decide_eq_true (show tA ≤ q by omega),
        decide_eq_true (show tB ≤ q by omega),
        decide_eq_false (show ¬ tA + 2000 ≤ q by omega),
        decide_eq_false (show ¬ tB + 2000 ≤ q by omega)]]
    rfl
  · intro h1
    by_cases h2 : tB + 2000 ≤ q
    · rw [show List.filter (fun e => decide (e.1 ≤ q))
          [(tA, CFEvent.set a), (tB, CFEvent.set b),
           (tA + 2000, CFEvent.clear), (tB + 2000, CFEvent.clear)] =
          [(tA, CFEvent.set a), (tB, CFEvent.set b),
           (tA + 2000, CFEvent.clear), (tB + 2000, CFEvent.clear)] by
        simp only [List.filter]
        rw [decide_eq_true (show tA ≤ q by omega),
          decide_eq_true (show tB ≤ q by omega),
          decide_eq_true h1, decide_eq_true h2]]
      rfl
    · rw [show List.filter (fun e => decide (e.1 ≤ q))
          [(tA, CFEvent.set a), (tB, CFEvent.set b),
           (tA + 2000, CFEvent.clear), (tB + 2000, CFEvent.clear)] =
          [(tA, CFEvent.set a), (tB, CFEvent.set b),
           (tA + 2000, CFEvent.clear)] by
        simp only [List.filter]
        rw [decide_eq_true (show tA ≤ q by omega),
          decide_eq_true (show tB ≤ q by omega),
          decide_eq_true h1, decide_eq_false h2]]
      rfl

/-- Witness for `c3_no_cancellation` at the concrete pair of actions
A at 0 and B at 1000, queried at 2200. -/
theorem c3_no_cancellation_witness :
    copiedAt [(0, "A"), (1000, "B")] 2200 = none :=
  (c3_no_cancellation 0 1000 2200 "A" "B" (by decide) (by decide)).2 (by decide)

/-!
## The PDF export (`handleDownloadPDF`, lines 87-197)

The export is embedded in two layers.  `buildSections` transcribes the
sequence of `addSection`/`addText` calls of lines 131-194 into a list
of titled sections whose bodies are the exact strings passed to
`addText`.  The paginator (`emitLine`, `addText`, `addSection`,
`renderSection`, `renderSections`) transcribes the layout arithmetic of
lines 95-117; the word wrapping done by `doc.splitTextToSize` is an
abstract parameter `wrap`.  A `PDFState` holds the finished pages, the
page under construction and the cursor `yPos`.
-/

/-- `words.join(', ')`. -/
def joinComma (ws : List String) : String := String.intercalate ", " ws

/-- Number lines starting at `i`, as the `forEach((x, i) => ...)` loops
do with their template `i + 1`. -/
def numberedFrom (i : Nat) : List String → List String
  | [] => []
  | s :: rest => (toString i ++ ". " ++ s) :: numberedFrom (i + 1) rest

/-- A titled block of body strings, the unit of layout. -/
structure Section where
  title : String
  lines : List String
deriving DecidableEq, Repr

/-- Body of the TEXT STATISTICS section (lines 137-141). -/
def statsLines (r : AnalysisResult) : List String :=
  [ "Words: " ++ toString r.text_stats.word_count,
    "Sentences: " ++ toString r.text_stats.sentence_count,
    "Average Words per Sentence: " ++ r.text_stats.avg_sentence_length,
    "Average Word Length: " ++ r.text_stats.avg_word_length,
    "Characters: " ++ toString r.text_stats.character_count ]

/-- Body of the READABILITY SCORE section (lines 145-147). -/
def readabilityLines (r : AnalysisResult) : List String :=
  [ "Flesch-Kincaid Grade Level: " ++ r.readability.flesch_kincaid_grade,
    "Reading Level: " ++ r.readability.reading_level,
    "Description: " ++ r.readability.description ]

/-- Body of the TENSE ANALYSIS section (lines 151-153): joined word
list, or the literal `None` for an empty category. -/
def tenseLines (r : AnalysisResult) : List String :=
  [ "Past Tense: " ++ (if r.tense_analysis.past.length > 0
      then joinComma r.tense_analysis.past else "None"),
    "Present Tense: " ++ (if r.tense_analysis.present.length > 0
      then joinComma r.tense_analysis.present else "None"),
    "Future Tense: " ++ (if r.tense_analysis.future.length > 0
      then joinComma r.tense_analysis.future else "None") ]

/-- Body of the PASSIVE VOICE DETECTION section (lines 157-164): a
count line followed by the numbered sentences, or the sentinel when
none were found. -/
def passiveLines (r : AnalysisResult) : List String :=
  if r.passive_sentences.length > 0 then
    ("Found " ++ toString r.passive_sentences.length ++
      " sentence(s) with passive voice:") :: numberedFrom 1 r.passive_sentences
  else
    ["No passive voice sentences detected."]

/-- Body of the WORD FREQUENCY section (lines 168-170). -/
def wordFreqLines (r : AnalysisResult) : List String :=
  numberedFrom 1 (r.word_frequency.map fun item =>
    item.word ++ ": " ++ toString item.count)

/-- One conditional parts-of-speech line (one of the if-blocks of
lines 174-194): emitted only when the category is present and
non-empty. -/
def posLine (label : String) (ws : Option (List String)) : List String :=
  match ws with
  | some l =>
      if l.length > 0 then
        [label ++ " (" ++ toString l.length ++ "): " ++ joinComma l]
      else []
  | none => []

/-- Body of the PARTS OF SPEECH section: the seven if-blocks of
lines 174-194 in source order. -/
def posLines (p : PartsOfSpeech) : List String :=
  posLine "Nouns" p.nouns ++ posLine "Verbs" p.verbs ++
  posLine "Adjectives" p.adjectives ++ posLine "Adverbs" p.adverbs ++
  posLine "Pronouns" p.pronouns ++ posLine "Prepositions" p.prepositions ++
  posLine "Conjunctions" p.conjunctions

/-- The seven parts-of-speech categories with their labels, in the
fixed order of the source. -/
def posCategories (p : PartsOfSpeech) : List (String × Option (List String)) :=
  [ ("Nouns", p.nouns), ("Verbs", p.verbs), ("Adjectives", p.adjectives),
    ("Adverbs", p.adverbs), ("Pronouns", p.pronouns),
    ("Prepositions", p.prepositions), ("Conjunctions", p.conjunctions) ]

/-- The non-emptiness test `category?.length > 0` on one category. -/
def posCatNonEmpty (c : String × Option (List String)) : Bool :=
  decide ((c.2.getD []).length > 0)

/-- The rendered line of one non-empty category. -/
def posCatLine (c : String × Option (List String)) : String :=
  c.1 ++ " (" ++ toString (c.2.getD []).length ++ "): " ++ joinComma (c.2.getD [])

/-- The section sequence the export emits, in source order
(lines 131-194). -/
def buildSections (text : String) (r : AnalysisResult) : List Section :=
  [ ⟨"INPUT TEXT", [text]⟩,
    ⟨"TEXT STATISTICS", statsLines r⟩,
    ⟨"READABILITY SCORE", readabilityLines r⟩,
    ⟨"TENSE ANALYSIS", tenseLines r⟩,
    ⟨"PASSIVE VOICE DETECTION", passiveLines r⟩,
    ⟨"WORD FREQUENCY (TOP 10)", wordFreqLines r⟩,
    ⟨"PARTS OF SPEECH", posLines r.parts_of_speech⟩ ]

/-- The mutable layout state of `handleDownloadPDF`: finished pages,
the page under construction and the cursor. -/
structure PDFState where
  pages : List (List String)
  cur : List String
  yPos : Nat
deriving DecidableEq, Repr

/-- `doc.addPage(); yPos = 20` (lines 101-102 and 111-112). -/
def newPage (st : PDFState) : PDFState :=
  ⟨st.pages ++ [st.cur], [], 20⟩

/-- One iteration of the `lines.forEach` loop of `addText`
(lines 99-106): break the page if the cursor passed 270, place the
line, advance the cursor by the line height 7. -/
def emitLine (l : String) (st : PDFState) : PDFState :=
  let st1 := if st.yPos > 270 then newPage st else st
  { st1 with cur := st1.cur ++ [l], yPos := st1.yPos + 7 }

/-- The whole `forEach` loop over the wrapped lines. -/
def emitList : List String → PDFState → PDFState
  | [], st => st
  | l :: rest, st => emitList rest (emitLine l st)

/-- `addText` (lines 95-107): wrap the string, then emit every wrapped
line. -/
def addText (wrap : String → List String) (text : String) (st : PDFState) :
    PDFState :=
  emitList (wrap text) st

/-- `addSection` (lines 109-117): break the page if the cursor passed
250, advance by the 5-unit top spacing, emit the title through
`addText`, advance by the 2-unit bottom spacing. -/
def addSection (wrap : String → List String) (title : String) (st : PDFState) :
    PDFState :=
  let st1 := if st.yPos > 250 then newPage st else st
  let st2 := { st1 with yPos := st1.yPos + 5 }
  let st3 := addText wrap title st2
  { st3 with yPos := st3.yPos + 2 }

/-- Emit one section: its title, then each body string through
`addText`. -/
def addBody (wrap : String → List String) : List String → PDFState → PDFState
  | [], st => st
  | l :: rest, st => addBody wrap rest (addText wrap l st)

/-- Render one section. -/
def renderSection (wrap : String → List String) (sec : Section)
    (st : PDFState) : PDFState :=
  addBody wrap sec.lines (addSection wrap sec.title st)

/-- Render a list of sections in order. -/
def renderSections (wrap : String → List String) :
    List Section → PDFState → PDFState
  | [], st => st
  | sec :: rest, st => renderSections wrap rest (renderSection wrap sec st)

/-- The document header (lines 119-129): the report title and the
generation-timestamp line on the first page, cursor at 50. -/
def initState (dateLine : String) : PDFState :=
  ⟨[], ["Text Analysis Report", dateLine], 50⟩

/-- The whole export: header, then every section of `buildSections`. -/
def renderPDF (wrap : String → List String) (dateLine text : String)
    (r : AnalysisResult) : PDFState :=
  renderSections wrap (buildSections text r) (initState dateLine)

/-- The pages of the finished document: the completed pages plus the
page under construction. -/
def pagesOf (st : PDFState) : List (List String) :=
  st.pages ++ [st.cur]

/-- All placed lines of the document in order, page boundaries
forgotten. -/
def docLines (st : PDFState) : List String :=
  (pagesOf st).flatten

/-- The flat line sequence a section contributes: its wrapped title
followed by the wrapped body strings. -/
def sectionFlat (wrap : String → List String) (sec : Section) : List String :=
  wrap sec.title ++ (sec.lines.map wrap).flatten

/-- A page break neither reorders nor drops placed lines. -/
theorem docLines_newPage (st : PDFState) : docLines (newPage st) = docLines st := by
  simp [docLines, pagesOf, newPage]

/-- Emitting one line appends it to the placed lines. -/
theorem docLines_emitLine (l : String) (st : PDFState) :
    docLines (emitLine l st) = docLines st ++ [l] := by
  unfold emitLine
  by_cases h : st.yPos > 270 <;>
    simp [h, newPage, docLines, pagesOf]

/-- Emitting a list of wrapped lines appends them in order. -/
theorem docLines_emitList (ls : List String) (st : PDFState) :
    docLines (emitList ls st) = docLines st ++ ls := by
  induction ls generalizing st with
  | nil => simp [emitList]
  | cons l rest ih =>
      rw [emitList, ih, docLines_emitLine]
      simp

/-- `addText` appends exactly the wrapped form of its string. -/
theorem docLines_addText (wrap : String → List String) (t : String)
    (st : PDFState) :
    docLines (addText wrap t st) = docLines st ++ wrap t :=
  docLines_emitList (wrap t) st

/-- Moving the cursor leaves the placed lines unchanged. -/
theorem docLines_setY (st : PDFState) (y : Nat) :
    docLines { st with yPos := y } = docLines st := rfl

/-- Cursor adjustments aside, `addSection` appends exactly the wrapped
title. -/
theorem docLines_addSection (wrap : String → List String) (title : String)
    (st : PDFState) :
    docLines (addSection wrap title st) = docLines st ++ wrap title := by
  simp only [addSection, docLines_setY, docLines_addText]
  by_cases h : st.yPos > 250
  · rw [if_pos h, docLines_newPage]
  · rw [if_neg h]

/-- The body loop appends the wrapped body strings in order. -/
theorem docLines_addBody (wrap : String → List String) (ls : List String)
    (st : PDFState) :
    docLines (addBody wrap ls st) = docLines st ++ (ls.map wrap).flatten := by
  induction ls generalizing st with
  | nil => simp [addBody]
  | cons l rest ih =>
      rw [addBody, ih, docLines_addText]
      simp

/-- One section appends its flat line sequence. -/
theorem docLines_renderSection (wrap : String → List String) (sec : Section)
    (st : PDFState) :
    docLines (renderSection wrap sec st) = docLines st ++ sectionFlat wrap sec := by
  rw [renderSection, docLines_addBody, docLines_addSection, sectionFlat]
  simp

/-- Rendering a section list appends the flat sequences in order. -/
theorem docLines_renderSections (wrap : String → List String)
    (secs : List Section) (st : PDFState) :
    docLines (renderSections wrap secs st) =
      docLines st ++ (secs.map (sectionFlat wrap)).flatten := by
  induction secs generalizing st with
  | nil => simp [renderSections]
  | cons sec rest ih =>
      rw [renderSections, ih, docLines_renderSection]
      simp

/-- One parts-of-speech if-block equals filtering its category and
rendering the survivor. -/
theorem posLine_filter (label : String) (o : Option (List String)) :
    posLine label o =
      if posCatNonEmpty (label, o) then [posCatLine (label, o)] else [] := by
  cases o with
  | none => simp [posLine, posCatNonEmpty, posCatLine]
  | some l =>
      by_cases h : l.length > 0 <;>
        simp [posLine, posCatNonEmpty, posCatLine, h]

/-- The PARTS OF SPEECH body is exactly the fixed-order category list
filtered to the present, non-empty categories. -/
theorem posLines_filter (p : PartsOfSpeech) :
    posLines p =
      ((posCategories p).filter posCatNonEmpty).map posCatLine := by
  simp only [posLines, posCategories, List.filter_cons, List.filter_nil]
  rw [posLine_filter "Nouns", posLine_filter "Verbs",
    posLine_filter "Adjectives", posLine_filter "Adverbs",
    posLine_filter "Pronouns", posLine_filter "Prepositions",
    posLine_filter "Conjunctions"]
  by_cases h1 : posCatNonEmpty ("Nouns", p.nouns) <;>
  by_cases h2 : posCatNonEmpty ("Verbs", p.verbs) <;>
  by_cases h3 : posCatNonEmpty ("Adjectives", p.adjectives) <;>
  by_cases h4 : posCatNonEmpty ("Adverbs", p.adverbs) <;>
  by_cases h5 : posCatNonEmpty ("Pronouns", p.pronouns) <;>
  by_cases h6 : posCatNonEmpty ("Prepositions", p.prepositions) <;>
  by_cases h7 : posCatNonEmpty ("Conjunctions", p.conjunctions) <;>
    simp [h1, h2, h3, h4, h5, h6, h7]

/-- Claim C5.  For every analysis result and every wrapping function,
the placed lines of the exported document are exactly the header
followed by each section in the fixed order — INPUT TEXT, TEXT
STATISTICS, READABILITY SCORE, TENSE ANALYSIS, PASSIVE VOICE
DETECTION, WORD FREQUENCY, PARTS OF SPEECH — with no line of a section
reordered or dropped by pagination, and the parts-of-speech body
consists of only the present, non-empty categories in the fixed order
nouns, verbs, adjectives, adverbs, pronouns, prepositions,
conjunctions. -/
theorem c5_section_order (wrap : String → List String)
    (dateLine text : String) (r : AnalysisResult) :
    docLines (renderPDF wrap dateLine text r) =
      "Text Analysis Report" :: dateLine ::
        ((buildSections text r).map (sectionFlat wrap)).flatten ∧
    (buildSections text r).map Section.title =
      [ "INPUT TEXT", "TEXT STATISTICS", "READABILITY SCORE",
        "TENSE ANALYSIS", "PASSIVE VOICE DETECTION",
        "WORD FREQUENCY (TOP 10)", "PARTS OF SPEECH" ] ∧
    posLines r.parts_of_speech =
      ((posCategories r.parts_of_speech).filter posCatNonEmpty).map posCatLine := by
  refine ⟨?_, rfl, posLines_filter r.parts_of_speech⟩
  rw [renderPDF, docLines_renderSections]
  rfl

/-- `emitLine` when the cursor is still within the page. -/
theorem emitLine_of_fits (l : String) (st : PDFState) (h : ¬ st.yPos > 270) :
    emitLine l st = ⟨st.pages, st.cur ++ [l], st.yPos + 7⟩ := by
  unfold emitLine
  rw [if_neg h]

/-- `emitLine` when the cursor passed the page content height. -/
theorem emitLine_of_overflow (l : String) (st : PDFState) (h : st.yPos > 270) :
    emitLine l st = ⟨st.pages ++ [st.cur], [l], 27⟩ := by
  unfold emitLine
  rw [if_pos h]
  rfl

/-- Emitting lines only ever appends new finished pages; existing
finished pages survive untouched. -/
theorem emitList_pages_mono (ls : List String) (st : PDFState) :
    ∃ t, (emitList ls st).pages = st.pages ++ t := by
  induction ls generalizing st with
  | nil => exact ⟨[], by simp [emitList]⟩
  | cons l rest ih =>
      rw [emitList]
      by_cases h : st.yPos > 270
      · rw [emitLine_of_overflow l st h]
        obtain ⟨t, ht⟩ := ih ⟨st.pages ++ [st.cur], [l], 27⟩
        refine ⟨[st.cur] ++ t, ?_⟩
        rw [ht]
        simp
      · rw [emitLine_of_fits l st h]
        exact ih ⟨st.pages, st.cur ++ [l], st.yPos + 7⟩

/-- The page under construction when an emit loop starts ends up as a
prefix of some page of the finished document. -/
theorem emitList_cur_on_page (ls : List String) (st : PDFState) :
    ∃ p ∈ pagesOf (emitList ls st), ∃ rest, p = st.cur ++ rest := by
  induction ls generalizing st with
  | nil =>
      refine ⟨st.cur, ?_, [], by simp⟩
      simp [emitList, pagesOf]
  | cons l rest ih =>
      rw [emitList]
      by_cases h : st.yPos > 270
      · rw [emitLine_of_overflow l st h]
        obtain ⟨t, ht⟩ := emitList_pages_mono rest ⟨st.pages ++ [st.cur], [l], 27⟩
        refine ⟨st.cur, ?_, [], by simp⟩
        have hmem : st.cur ∈ (emitList rest ⟨st.pages ++ [st.cur], [l], 27⟩).pages := by
          rw [ht]
          simp
        simp only [pagesOf, List.mem_append]
        exact Or.inl hmem
      · rw [emitLine_of_fits l st h]
        obtain ⟨p, hp, r, hr⟩ := ih ⟨st.pages, st.cur ++ [l], st.yPos + 7⟩
        refine ⟨p, hp, [l] ++ r, ?_⟩
        rw [hr]
        simp

/-- After `addSection` with a single-line title, the cursor sits at
most at `start + 5 + 7 + 2` with `start ≤ 250`, the title is the last
line of the open page, and the open page and finished pages are those
of the (possibly broken) incoming state. -/
theorem addSection_state (wrap : String → List String) (title tl : String)
    (st : PDFState) (ht : wrap title = [tl]) :
    (addSection wrap title st).yPos ≤ 250 + 5 + 7 + 2 ∧
    (addSection wrap title st).cur =
      (if st.yPos > 250 then newPage st else st).cur ++ [tl] ∧
    (addSection wrap title st).pages =
      (if st.yPos > 250 then newPage st else st).pages := by
  unfold addSection addText
  rw [ht]
  by_cases h : st.yPos > 250
  · rw [if_pos h]
    refine ⟨?_, ?_, ?_⟩ <;>
      simp [emitList, emitLine, newPage]
  · rw [if_neg h]
    have h270 : ¬ st.yPos + 5 > 270 := by omega
    refine ⟨?_, ?_, ?_⟩ <;>
      (simp [emitList, emitLine, h270]; try omega)

/-- Claim C6.  Whenever a section title (wrapped to a single line, as
every section title of the export is) is emitted, the cursor after the
title is at most `250 + 5 + 7 + 2 = 264`, within the 270-unit page
content height, so the first wrapped line of the first body string is
emitted on the same page as the title: some page of the finished
document carries the title line immediately followed by that body
line. -/
theorem c6_title_kept_with_body (wrap : String → List String)
    (st : PDFState) (title body tl bl : String) (rest : List String)
    (ht : wrap title = [tl]) (hb : wrap body = bl :: rest) :
    (addSection wrap title st).yPos ≤ 250 + 5 + 7 + 2 ∧
    ∃ p ∈ pagesOf (addText wrap body (addSection wrap title st)),
      ∃ pre post, p = pre ++ tl :: bl :: post := by
  obtain ⟨hy, hcur, -⟩ := addSection_state wrap title tl st ht
  refine ⟨hy, ?_⟩
  rw [addText, hb, emitList]
  have hnb : ¬ (addSection wrap title st).yPos > 270 := by omega
  have hstep : emitLine bl (addSection wrap title st) =
      { addSection wrap title st with
        cur := (addSection wrap title st).cur ++ [bl],
        yPos := (addSection wrap title st).yPos + 7 } := by
    unfold emitLine
    rw [if_neg hnb]
  rw [hstep]
  obtain ⟨p, hp, r, hr⟩ :=
    emitList_cur_on_page rest
      { addSection wrap title st with
        cur := (addSection wrap title st).cur ++ [bl],
        yPos := (addSection wrap title st).yPos + 7 }
  refine ⟨p, hp, (if st.yPos > 250 then newPage st else st).cur, r, ?_⟩
  simp only at hr
  rw [hr, hcur]
  simp

/-- Witness for `c6_title_kept_with_body` with the identity wrapping,
starting from the document header state. -/
theorem c6_title_kept_with_body_witness :
    (fun s => [s]) "PARTS OF SPEECH" = ["PARTS OF SPEECH"] ∧
    (fun s => [s]) "body line" = "body line" :: [] ∧
    ((addSection (fun s => [s]) "PARTS OF SPEECH" (initState "date")).yPos ≤
        250 + 5 + 7 + 2 ∧
      ∃ p ∈ pagesOf (addText (fun s => [s]) "body line"
          (addSection (fun s => [s]) "PARTS OF SPEECH" (initState "date"))),
        ∃ pre post, p = pre ++ "PARTS OF SPEECH" :: "body line" :: post) :=
  ⟨rfl, rfl,
   c6_title_kept_with_body (fun s => [s]) (initState "date")
     "PARTS OF SPEECH" "body line" "PARTS OF SPEECH" "body line" [] rfl rfl⟩

/-- A sample result with every collection empty and every
parts-of-speech category absent. -/
def sampleResult : AnalysisResult :=
  { text_stats := ⟨7, 1, "7.0", "3.5", 30⟩,
    readability := ⟨"3.2", "Easy", "Easy to read"⟩,
    tense_analysis := ⟨[], [], []⟩,
    passive_sentences := [],
    word_frequency := [],
    parts_of_speech := ⟨none, none, none, none, none, none, none⟩ }

/-- The sample result with exactly one passive sentence. -/
def passiveResult : AnalysisResult :=
  { sampleResult with
    passive_sentences := ["The cat was chased by the dog."] }

/-- Claim C7 (counterexample).  On a result whose passive-sentence list
has length exactly 1, the export emits TWO body lines in the Passive
Voice Detection section — the count line and the numbered sentence —
not the single body line the claim states. -/
theorem c7_passive_counterexample :
    passiveResult.passive_sentences.length = 1 ∧
    passiveLines passiveResult =
      ["Found 1 sentence(s) with passive voice:",
       "1. The cat was chased by the dog."] ∧
    (passiveLines passiveResult).length ≠ 1 := by
  refine ⟨rfl, rfl, ?_⟩
  decide

/-- Claim C7 (amended).  For every result whose passive-sentence list
is a single sentence, the Passive Voice Detection section of the
export carries exactly two body lines — the count line
`Found 1 sentence(s) with passive voice:` followed by the numbered
sentence — and not the empty-case sentinel. -/
theorem c7_passive_single (t : String) (r : AnalysisResult) (s : String)
    (h : r.passive_sentences = [s]) :
    (buildSections t r).get? 4 =
      some ⟨"PASSIVE VOICE DETECTION",
        ["Found 1 sentence(s) with passive voice:", "1. " ++ s]⟩ := by
  show some (⟨"PASSIVE VOICE DETECTION", passiveLines r⟩ : Section) = _
  unfold passiveLines
  rw [h]
  rw [show ([s] : List String).length = 1 from rfl]
  rfl

/-- Witness for `c7_passive_single` at the concrete passive result. -/
theorem c7_passive_single_witness :
    (buildSections "The cat was chased by the dog." passiveResult).get? 4 =
      some ⟨"PASSIVE VOICE DETECTION",
        ["Found 1 sentence(s) with passive voice:",
         "1. " ++ "The cat was chased by the dog."]⟩ :=
  c7_passive_single "The cat was chased by the dog." passiveResult
    "The cat was chased by the dog." rfl

/-!
## Clipboard copy of a category (`handleCopyCategory`, lines 44-49)
-/

/-- The `words` argument of `handleCopyCategory`: the call sites pass
either an array of words or a plain string; the handler distinguishes
them with `Array.isArray`. -/
inductive CopyWords where
  | arr (ws : List String)
  | str (s : String)
deriving DecidableEq, Repr

/-- The string written to the clipboard (line 45):
`Array.isArray(words) ? words.join(', ') : words`. -/
def copyText : CopyWords → String
  | CopyWords.arr ws => joinComma ws
  | CopyWords.str s => s

/-- The render condition of the future-tense copy button (line 464):
the button exists only when `future.length > 0`. -/
def futureCopyShown (r : AnalysisResult) : Bool :=
  decide (r.tense_analysis.future.length > 0)

/-- The clipboard text of the future-tense copy button (line 466):
`handleCopyCategory('future', result.tense_analysis.future)`. -/
def futureCopyText (r : AnalysisResult) : String :=
  copyText (CopyWords.arr r.tense_analysis.future)

/-- Claim C8 (counterexample).  With `future = []` the copy serializer
yields the empty string, not the literal `None` — and the copy control
is not even rendered; `None` is the empty-case literal of the exported
document, not of the clipboard. -/
theorem c8_future_counterexample :
    sampleResult.tense_analysis.future = [] ∧
    futureCopyText sampleResult = "" ∧
    futureCopyText sampleResult ≠ "None" ∧
    futureCopyShown sampleResult = false := by
  refine ⟨rfl, rfl, ?_, rfl⟩
  decide

/-- Claim C8 (amended).  When the future-tense list is empty, no copy
control is rendered for it and the copy serialization yields the empty
string; the literal `None` is the empty-case rendering of the exported
document line `Future Tense: None`.  Non-empty categories are copied
as the comma-and-space-joined word list. -/
theorem c8_future_copy (r : AnalysisResult)
    (h : r.tense_analysis.future = []) :
    futureCopyShown r = false ∧
    futureCopyText r = "" ∧
    (tenseLines r).get? 2 = some "Future Tense: None" ∧
    (∀ ws : List String, copyText (CopyWords.arr ws) = String.intercalate ", " ws) := by
  refine ⟨?_, ?_, ?_, fun ws => rfl⟩
  · simp [futureCopyShown, h]
  · unfold futureCopyText copyText joinComma
    rw [h]
    rfl
  · unfold tenseLines
    rw [h]
    rfl

/-- Witness for `c8_future_copy` at the sample result. -/
theorem c8_future_copy_witness :
    futureCopyShown sampleResult = false ∧
    futureCopyText sampleResult = "" ∧
    (tenseLines sampleResult).get? 2 = some "Future Tense: None" :=
  ⟨(c8_future_copy sampleResult rfl).1, (c8_future_copy sampleResult rfl).2.1,
   (c8_future_copy sampleResult rfl).2.2.1⟩

/-- A present-or-absent category whose word list is effectively empty,
as tested by the optional-chaining guard `category?.length > 0`. -/
def catEmpty (o : Option (List String)) : Prop := o.getD [] = []

/-- An effectively empty category contributes no line. -/
theorem posLine_of_empty (label : String) (o : Option (List String))
    (h : catEmpty o) : posLine label o = [] := by
  cases o with
  | none => rfl
  | some l =>
      simp only [catEmpty, Option.getD] at h
      simp [posLine, h]

/-- Claim C10.  The PARTS OF SPEECH section header is emitted
unconditionally — the seventh section of every export is titled
`PARTS OF SPEECH` — and when all seven categories are absent or empty
its body is empty: the section is just its title with zero body
lines. -/
theorem c10_pos_header_unconditional (t : String) (r : AnalysisResult) :
    ((buildSections t r).map Section.title).get? 6 = some "PARTS OF SPEECH" ∧
    (catEmpty r.parts_of_speech.nouns → catEmpty r.parts_of_speech.verbs →
     catEmpty r.parts_of_speech.adjectives → catEmpty r.parts_of_speech.adverbs →
     catEmpty r.parts_of_speech.pronouns → catEmpty r.parts_of_speech.prepositions →
     catEmpty r.parts_of_speech.conjunctions →
     (buildSections t r).get? 6 = some ⟨"PARTS OF SPEECH", []⟩) := by
  refine ⟨rfl, ?_⟩
  intro h1 h2 h3 h4 h5 h6 h7
  show some (⟨"PARTS OF SPEECH", posLines r.parts_of_speech⟩ : Section) = _
  rw [posLines, posLine_of_empty _ _ h1, posLine_of_empty _ _ h2,
    posLine_of_empty _ _ h3, posLine_of_empty _ _ h4, posLine_of_empty _ _ h5,
    posLine_of_empty _ _ h6, posLine_of_empty _ _ h7]
  rfl

/-- Witness for `c10_pos_header_unconditional` at the sample result,
whose categories are all absent. -/
theorem c10_pos_header_unconditional_witness :
    (buildSections "some input text" sampleResult).get? 6 =
      some ⟨"PARTS OF SPEECH", []⟩ :=
  (c10_pos_header_unconditional "some input text" sampleResult).2
    rfl rfl rfl rfl rfl rfl rfl

end TextAnalyzer
